import Mathlib

/-!
Shallow embedding of `src/pacman.rs` from the paccat repository: session
initialization (`alpm_init`), package resolution (`get_dbpkg`), package
signature verification (`verify_packages`) and download-URL construction
(`get_download_url`), together with theorems settling the specification
claims about them.

External collaborators (the alpm library, pacmanconf, the filesystem) are
modelled as explicit data or oracle functions passed to the embedded
functions; the control flow, bitmask tests, error construction and error
contexts are translated directly from the Rust source.
-/

namespace Paccat

/-- Equality of `Except` values is decidable when it is on both sides. -/
instance {ε α : Type} [DecidableEq ε] [DecidableEq α] : DecidableEq (Except ε α) := fun x y =>
  match x, y with
  | Except.ok a, Except.ok b =>
      if h : a = b then isTrue (by rw [h]) else isFalse (by simp [h])
  | Except.error a, Except.error b =>
      if h : a = b then isTrue (by rw [h]) else isFalse (by simp [h])
  | Except.ok _, Except.error _ => isFalse (by simp)
  | Except.error _, Except.ok _ => isFalse (by simp)

/-- Error codes of the external alpm library that the source code inspects
or produces (`alpm::Error`).  Only the constructors the source mentions,
plus representatives for load/refresh failures, are modelled. -/
inductive AlpmError where
  | SigMissing
  | SigInvalid
  | KeyUnknown
  | KeyDisabled
  | ServerNone
  | PkgNotFound
  | PkgOpen
  | Retrieve
  | DbInvalid
  deriving DecidableEq, Repr

/-- An `anyhow::Error` as the source builds it: an underlying alpm error
(or none, when the error comes from an empty `Option` via `context`)
wrapped in a stack of human-readable context strings added by
`with_context` / `context`.  `context` lists the innermost context
first. -/
structure AnyhowError where
  context : List String
  root : Option AlpmError
  deriving DecidableEq, Repr

/-- `alpm::SigLevel` is a bitflags bitmask; we model it as a natural
number holding the bits. -/
abbrev SigLevel := Nat

namespace SigLevel

/-- `SigLevel::PACKAGE` — bit 0 of the libalpm signature-level mask. -/
def PACKAGE : SigLevel := 1

/-- `SigLevel::PACKAGE_OPTIONAL` — bit 1 of the libalpm signature-level
mask. -/
def PACKAGE_OPTIONAL : SigLevel := 2

/-- `bitflags` `contains`: every bit of `f` is set in `s`. -/
def contains (s f : SigLevel) : Bool := s.land f = f

end SigLevel

/-- What the alpm library reports for one file inside the verification
loop of `verify_packages`: either `pkg_load` itself fails, or the loaded
package's `check_signature()` returns `Ok` (`sigCheck none`) or an error
(`sigCheck (some e)`). -/
inductive FileCheck where
  | loadErr (e : AlpmError)
  | sigCheck (r : Option AlpmError)
  deriving DecidableEq, Repr

/-- The `for file in files` loop of `verify_packages`
(`src/pacman.rs:77-88`).  Besides the `Result`, it returns the trace of
files on which `pkg_load` was invoked (the file I/O performed), in
order.  A `pkg_load` failure is propagated by `?` with no added context;
a `check_signature` failure of `SigMissing` is skipped when the policy
contains `PACKAGE_OPTIONAL`; any other `check_signature` failure is
wrapped in the context `"failed to verify package <file>"` and aborts
the loop. -/
def verifyLoop (check : String → FileCheck) (siglevel : SigLevel) :
    List String → List String × Except AnyhowError Unit
  | [] => ([], Except.ok ())
  | file :: rest =>
    match check file with
    | FileCheck.loadErr e => ([file], Except.error ⟨[], some e⟩)
    | FileCheck.sigCheck none =>
        let r := verifyLoop check siglevel rest
        (file :: r.1, r.2)
    | FileCheck.sigCheck (some e) =>
        if e = AlpmError.SigMissing && siglevel.contains SigLevel.PACKAGE_OPTIONAL then
          let r := verifyLoop check siglevel rest
          (file :: r.1, r.2)
        else
          ([file], Except.error ⟨["failed to verify package " ++ file], some e⟩)

/-- `verify_packages` (`src/pacman.rs:69-91`).  If the trust policy does
not contain `SigLevel::PACKAGE` it returns `Ok(())` immediately;
otherwise it runs the per-file loop.  The first component is the trace
of files loaded (empty on the fast path). -/
def verify_packages (check : String → FileCheck) (siglevel : SigLevel)
    (files : List String) : List String × Except AnyhowError Unit :=
  if !siglevel.contains SigLevel.PACKAGE then ([], Except.ok ())
  else verifyLoop check siglevel files

/-! ## Databases, packages and resolution -/

/-- The part of an alpm database visible through a package's
back-reference (`pkg.db()`): the database's name and its ordered
mirror/server list. -/
structure DbInfo where
  name : String
  servers : List String
  deriving DecidableEq, Repr

/-- An `alpm::Package` as the source uses it: a name, the names it
provides, its archive filename, and the back-reference to its owning
database (`db()` returns an `Option`). -/
structure Pkg where
  name : String
  provides : List String
  filename : String
  db : Option DbInfo
  deriving DecidableEq, Repr

/-- An alpm database: its info plus its ordered package list. -/
structure Db where
  info : DbInfo
  pkgs : List Pkg
  deriving DecidableEq, Repr

/-- `Db::pkg(name)` — exact package-name lookup in one database,
as used on the local database.  (`.ok()` turns the library `Result`
into an `Option`.) -/
def Db.pkg (db : Db) (s : String) : Option Pkg :=
  db.pkgs.find? (fun p => p.name = s)

/-- The alpm session handle as the resolver sees it: the local
(installed) database and the ordered list of remote (sync)
databases. -/
structure Alpm where
  localdb : Db
  syncdbs : List Db
  deriving DecidableEq, Repr

/-- `alpm_utils::Targ`: a target specifier, an optional repository
qualifier plus a package description. -/
structure Targ where
  repo : Option String
  pkg : String
  deriving DecidableEq, Repr

/-- Splitting a character list at a separator character, as the Rust
`str::split` iterator yields its components (an empty input yields one
empty component). -/
def splitOnChar (c : Char) : List Char → List (List Char)
  | [] => [[]]
  | x :: xs =>
    let r := splitOnChar c xs
    if x = c then [] :: r
    else
      match r with
      | [] => [[x]]
      | y :: ys => (x :: y) :: ys

/-- `Targ::from(&str)`: a string with a `/` splits into a repository
qualifier and a package part (only the first two `/`-separated
components are consumed); otherwise the whole string is the package
part. -/
def Targ.fromStr (s : String) : Targ :=
  match splitOnChar '/' s.toList with
  | [] => ⟨none, s⟩
  | [p] => ⟨none, String.mk p⟩
  | r :: p :: _ => ⟨some (String.mk r), String.mk p⟩

/-- Modelled from the spec: the external resolution library's provider
semantics — a package satisfies a dependency description when its name
matches or it provides that name ("satisfaction includes exact name
match or provided-name match"); version constraints are elided as the
claims do not exercise them. -/
def Pkg.satisfies (p : Pkg) (dep : String) : Bool :=
  p.name = dep || p.provides.contains dep

/-- `find_satisfier` over one database's package cache: the first
package in list order satisfying the description. -/
def find_satisfier (pkgs : List Pkg) (dep : String) : Option Pkg :=
  pkgs.find? (fun p => p.satisfies dep)

/-- `alpm_utils::DbListExt::find_target_satisfier`: with a repository
qualifier, search only the first database of that name; without one,
scan the databases in configured order and return the first
satisfier. -/
def find_target_satisfier (dbs : List Db) (t : Targ) : Option Pkg :=
  match t.repo with
  | some r => (dbs.find? (fun db => db.info.name = r)).bind
      (fun db => find_satisfier db.pkgs t.pkg)
  | none => dbs.findSome? (fun db => find_satisfier db.pkgs t.pkg)

/-- `get_dbpkg` (`src/pacman.rs:58-67`).  With `localdb = true`, an
exact name lookup in the local database only; otherwise a target-
specifier search over the sync databases.  A miss becomes an error with
context `"could not find package: <target_str>"`. -/
def get_dbpkg (alpm : Alpm) (target_str : String) (localdb : Bool) :
    Except AnyhowError Pkg :=
  let pkg := if localdb then alpm.localdb.pkg target_str
             else find_target_satisfier alpm.syncdbs (Targ.fromStr target_str)
  match pkg with
  | some p => Except.ok p
  | none => Except.error ⟨["could not find package: " ++ target_str], none⟩

/-! ## Download-URL construction -/

/-- Outcome of `get_download_url`: the source calls `pkg.db().unwrap()`,
so a record with no owning database makes the process panic rather than
return an error; `panicked` models that fatal invariant violation. -/
inductive UrlResult where
  | panicked
  | err (e : AnyhowError)
  | ok (url : String)
  deriving DecidableEq, Repr

/-- `get_download_url` (`src/pacman.rs:93-102`): take the first server
of the package's owning database (`ServerNone` error if the list is
empty) and join it to the archive filename with a single `/`. -/
def get_download_url (pkg : Pkg) : UrlResult :=
  match pkg.db with
  | none => UrlResult.panicked
  | some db =>
    match db.servers.head? with
    | none => UrlResult.err ⟨[], some AlpmError.ServerNone⟩
    | some server => UrlResult.ok (server ++ "/" ++ pkg.filename)

/-! ## Session initialization -/

/-- The command-line arguments `alpm_init` reads (`crate::args::Args`,
fields used in `src/pacman.rs`). -/
structure Args where
  config : Option String
  root : Option String
  dbpath : Option String
  filedb : Bool
  cachedir : Option String
  refresh : Nat
  deriving DecidableEq, Repr

/-- The fields of `pacmanconf::Config` that `alpm_init` reads. -/
structure Conf where
  root_dir : String
  db_path : String
  deriving DecidableEq, Repr

/-- Observable actions `alpm_init` performs, in order: diagnostic lines
(`note`), switching the database extension, registering the three event
reporters, applying the loaded configuration, registering the cache
directory (per the spec, the registered directory is created if it does
not exist — that effect lives inside the external library call),
invoking `syncdbs_mut().update(force)`, and checking one sync database's
validity. -/
inductive InitEvent where
  | note (msg : String)
  | setDbext (ext : String)
  | registerCallbacks
  | configureAlpm
  | addCachedir (dir : String)
  | updateCall (force : Bool)
  | validityCheck (db : String)
  deriving DecidableEq, Repr

/-- Oracles for the external collaborators `alpm_init` calls into:
configuration loading (`pacmanconf`), session construction
(`Alpm::new`), `configure_alpm`, the temporary directory as text (`none`
models a path that is not valid UTF-8), `add_cachedir`, database
refresh (`update`), and the sync databases with their validity. -/
structure InitEnv where
  loadConf : Option String → Option String → Except AnyhowError Conf
  newAlpm : String → String → Except AlpmError Unit
  configure : Conf → Except AnyhowError Unit
  tempDirUtf8 : Option String
  addCachedirRes : String → Except AlpmError Unit
  update : Bool → Except AlpmError Unit
  syncdbNames : List String
  dbValid : String → Except AlpmError Unit

/-- `if let Some(dbpath) = args.dbpath { conf.db_path = dbpath }`
(`src/pacman.rs:13-15`). -/
def mergeDbpath (dbpath : Option String) (conf : Conf) : Conf :=
  match dbpath with
  | some d => { conf with db_path := d }
  | none => conf

/-- Cache-directory resolution (`src/pacman.rs:34-43`): an explicit
override is used as given; otherwise `std::env::temp_dir().join("paccat")`
is rendered as text, failing with context `"tempdir is not a str"` when
the temporary directory is not representable as a string. -/
def resolveCachedir (cachedir : Option String) (tempDirUtf8 : Option String) :
    Except AnyhowError String :=
  match cachedir with
  | some dir => Except.ok dir
  | none =>
    match tempDirUtf8 with
    | some t => Except.ok (t ++ "/paccat")
    | none => Except.error ⟨["tempdir is not a str"], none⟩

/-- The `for db in alpm.syncdbs()` validity loop (`src/pacman.rs:50-53`):
each database is checked in order; a failure is wrapped in the context
`"database <name><dbext> is not valid"` and aborts the loop. -/
def validityLoop (dbValid : String → Except AlpmError Unit) (dbext : String) :
    List String → List InitEvent × Except AnyhowError Unit
  | [] => ([], Except.ok ())
  | n :: rest =>
    match dbValid n with
    | Except.error e =>
        ([InitEvent.validityCheck n],
         Except.error ⟨["database " ++ n ++ dbext ++ " is not valid"], some e⟩)
    | Except.ok _ =>
        let r := validityLoop dbValid dbext rest
        (InitEvent.validityCheck n :: r.1, r.2)

/-- The session configuration `alpm_init` returns on success. -/
structure Session where
  root_dir : String
  db_path : String
  dbext : String
  cachedirs : List String
  deriving DecidableEq, Repr

/-- `alpm_init` (`src/pacman.rs:10-56`), over the oracles of `InitEnv`:
load the configuration, merge the dbpath override, construct the
session (failure names both paths), optionally switch to the `.files`
extension, register the reporters, apply the configuration, resolve and
register the cache directory, refresh the sync databases when
`args.refresh > 0` (forced when `> 1`, preceded by a diagnostic
notice, failures fatal), and finally check every sync database's
validity.  Returns the event trace alongside the result. -/
def alpm_init (env : InitEnv) (args : Args) :
    List InitEvent × Except AnyhowError Session :=
  match env.loadConf args.config args.root with
  | Except.error e => ([], Except.error e)
  | Except.ok conf0 =>
    let conf := mergeDbpath args.dbpath conf0
    match env.newAlpm conf.root_dir conf.db_path with
    | Except.error e =>
        ([], Except.error
          ⟨["failed to initialize alpm (root: " ++ conf.root_dir
              ++ ", dbpath: " ++ conf.db_path ++ ")"], some e⟩)
    | Except.ok _ =>
      let dbext := if args.filedb then ".files" else ".db"
      let ev1 : List InitEvent :=
        (if args.filedb then [InitEvent.setDbext ".files"] else [])
          ++ [InitEvent.registerCallbacks, InitEvent.configureAlpm]
      match env.configure conf with
      | Except.error e => (ev1, Except.error e)
      | Except.ok _ =>
        match resolveCachedir args.cachedir env.tempDirUtf8 with
        | Except.error e => (ev1, Except.error e)
        | Except.ok cdir =>
          match env.addCachedirRes cdir with
          | Except.error e =>
              (ev1 ++ [InitEvent.addCachedir cdir], Except.error ⟨[], some e⟩)
          | Except.ok _ =>
            let ev2 := ev1 ++ [InitEvent.addCachedir cdir]
            let refreshEv : List InitEvent :=
              if args.refresh > 0 then
                [InitEvent.note "synchronising package databases...",
                 InitEvent.updateCall (decide (args.refresh > 1))]
              else []
            let refreshRes : Except AnyhowError Unit :=
              if args.refresh > 0 then
                match env.update (decide (args.refresh > 1)) with
                | Except.error e => Except.error ⟨[], some e⟩
                | Except.ok _ => Except.ok ()
              else Except.ok ()
            match refreshRes with
            | Except.error e => (ev2 ++ refreshEv, Except.error e)
            | Except.ok _ =>
              let vr := validityLoop env.dbValid dbext env.syncdbNames
              (ev2 ++ refreshEv ++ vr.1,
               vr.2.map (fun _ =>
                 ⟨conf.root_dir, conf.db_path, dbext, [cdir]⟩))

/-! ## Helper predicates and concrete fixtures -/

/-- Whether `pat` is a leading segment of `l`. -/
def leadMatch : List Char → List Char → Bool
  | [], _ => true
  | _ :: _, [] => false
  | a :: as, b :: bs => decide (a = b) && leadMatch as bs

/-- Whether `pat` occurs as a contiguous segment of `l`. -/
def hasSubList (pat : List Char) : List Char → Bool
  | [] => leadMatch pat []
  | x :: xs => leadMatch pat (x :: xs) || hasSubList pat xs

/-- Whether a verification result is an error some context line of which
mentions the string `f`. -/
def errorMentions (r : Except AnyhowError Unit) (f : String) : Bool :=
  match r with
  | Except.ok _ => false
  | Except.error e => e.context.any (fun c => hasSubList f.toList c.toList)

/-- Whether an init event is a `syncdbs_mut().update(..)` call. -/
def isUpdate : InitEvent → Bool
  | InitEvent.updateCall _ => true
  | _ => false

/-- `hasAdjacent a b l` holds when `a` occurs in `l` immediately
followed by `b`. -/
def hasAdjacent (a b : InitEvent) : List InitEvent → Bool
  | x :: y :: rest => (decide (x = a) && decide (y = b)) || hasAdjacent a b (y :: rest)
  | _ => false

/-- A remote database carrying one package named `foo`. -/
def extraDbInfo : DbInfo := ⟨"extra", ["https://m1", "https://m2"]⟩

/-- The `foo` package of the `extra` database fixture. -/
def fooPkg : Pkg := ⟨"foo", [], "foo-1.0-1-x86_64.pkg.tar.zst", some extraDbInfo⟩

/-- The `extra` database fixture. -/
def extraDb : Db := ⟨extraDbInfo, [fooPkg]⟩

/-- An empty local database fixture. -/
def emptyLocalDb : Db := ⟨⟨"local", []⟩, []⟩

/-- A package fixture whose owning database has two mirrors. -/
def mirrorPkg : Pkg :=
  ⟨"pkg", [], "pkg-1.0-1-x86_64.pkg.tar.zst", some ⟨"extra", ["https://m1", "https://m2"]⟩⟩

/-- A package fixture whose owning database has no mirrors. -/
def noServerPkg : Pkg := ⟨"pkg", [], "pkg-1.0-1-x86_64.pkg.tar.zst", some ⟨"extra", []⟩⟩

/-- A package fixture with no owning database. -/
def noDbPkg : Pkg := ⟨"pkg", [], "pkg-1.0-1-x86_64.pkg.tar.zst", none⟩

/-- An oracle environment in which every external call succeeds. -/
def envOk : InitEnv where
  loadConf := fun _ _ => Except.ok ⟨"/", "/var/lib/pacman/"⟩
  newAlpm := fun _ _ => Except.ok ()
  configure := fun _ => Except.ok ()
  tempDirUtf8 := some "/tmp"
  addCachedirRes := fun _ => Except.ok ()
  update := fun _ => Except.ok ()
  syncdbNames := ["core", "extra"]
  dbValid := fun _ => Except.ok ()

/-- `envOk` with a failing database refresh. -/
def envUpdFail : InitEnv :=
  { envOk with update := fun _ => Except.error AlpmError.Retrieve }

/-- `envOk` with a temporary directory that is not valid UTF-8. -/
def envNoTmp : InitEnv := { envOk with tempDirUtf8 := none }

/-- Default arguments with a given refresh intensity. -/
def argsR (r : Nat) : Args := ⟨none, none, none, false, none, r⟩

/-- Default arguments with an explicit cache-directory override. -/
def argsCache : Args := ⟨none, none, none, false, some "/var/cache/custom", 0⟩

end Paccat

namespace Paccat

/-! ## Sanity examples for the verifier (concrete evaluations) -/

example :
    verify_packages (fun _ => FileCheck.loadErr AlpmError.PkgOpen) 0 ["a", "b"]
      = ([], Except.ok ()) := rfl

example :
    verify_packages (fun _ => FileCheck.sigCheck (some AlpmError.SigMissing))
      (SigLevel.PACKAGE.lor SigLevel.PACKAGE_OPTIONAL) ["a", "b"]
      = (["a", "b"], Except.ok ()) := rfl

example :
    verify_packages (fun _ => FileCheck.sigCheck (some AlpmError.SigMissing))
      SigLevel.PACKAGE ["a", "b"]
      = (["a"], Except.error ⟨["failed to verify package " ++ "a"], some AlpmError.SigMissing⟩) := by rfl

example :
    get_dbpkg ⟨emptyLocalDb, [extraDb]⟩ "foo" true
      = Except.error ⟨["could not find package: foo"], none⟩ := rfl

example : get_dbpkg ⟨emptyLocalDb, [extraDb]⟩ "foo" false = Except.ok fooPkg := rfl

example : Targ.fromStr "extra/foo" = ⟨some "extra", "foo"⟩ := rfl

example : Targ.fromStr "foo" = ⟨none, "foo"⟩ := rfl

example :
    get_download_url mirrorPkg
      = UrlResult.ok "https://m1/pkg-1.0-1-x86_64.pkg.tar.zst" := rfl

example :
    get_download_url noServerPkg
      = UrlResult.err ⟨[], some AlpmError.ServerNone⟩ := rfl

example : get_download_url noDbPkg = UrlResult.panicked := rfl

example :
    (alpm_init envOk (argsR 0)).1
      = [InitEvent.registerCallbacks, InitEvent.configureAlpm,
         InitEvent.addCachedir "/tmp/paccat",
         InitEvent.validityCheck "core", InitEvent.validityCheck "extra"] := rfl

example :
    (alpm_init envOk (argsR 2)).1
      = [InitEvent.registerCallbacks, InitEvent.configureAlpm,
         InitEvent.addCachedir "/tmp/paccat",
         InitEvent.note "synchronising package databases...",
         InitEvent.updateCall true,
         InitEvent.validityCheck "core", InitEvent.validityCheck "extra"] := rfl

example :
    (alpm_init envOk (argsR 1)).2
      = Except.ok ⟨"/", "/var/lib/pacman/", ".db", ["/tmp/paccat"]⟩ := rfl

example :
    (alpm_init envUpdFail (argsR 1)).2
      = Except.error ⟨[], some AlpmError.Retrieve⟩ := rfl

example :
    (alpm_init envNoTmp (argsR 0)).2
      = Except.error ⟨["tempdir is not a str"], none⟩ := rfl

/-! ## Claims about the signature verifier -/

/-- C1: with a trust policy containing `PACKAGE`, a file whose signature
check reports `SigMissing` is skipped (result unchanged, the file still
loaded) when the policy also contains `PACKAGE_OPTIONAL`, and otherwise
verification fails with an error naming that file, loading no later
file. -/
theorem verify_missing_signature_policy (check : String → FileCheck)
    (siglevel : SigLevel) (f : String) (fs : List String)
    (hP : siglevel.contains SigLevel.PACKAGE = true)
    (hf : check f = FileCheck.sigCheck (some AlpmError.SigMissing)) :
    (siglevel.contains SigLevel.PACKAGE_OPTIONAL = true →
      verify_packages check siglevel (f :: fs)
        = (f :: (verify_packages check siglevel fs).1,
           (verify_packages check siglevel fs).2))
    ∧ (siglevel.contains SigLevel.PACKAGE_OPTIONAL = false →
      verify_packages check siglevel (f :: fs)
        = ([f], Except.error ⟨["failed to verify package " ++ f],
            some AlpmError.SigMissing⟩)) := by
  constructor <;> intro hOpt <;>
    simp [verify_packages, verifyLoop, hP, hf, hOpt]

/-- Witness for C1 at policy `3 = PACKAGE ||| PACKAGE_OPTIONAL` (skip)
and policy `1 = PACKAGE` (fatal, later file unchecked). -/
theorem verify_missing_signature_policy_witness :
    verify_packages (fun _ => FileCheck.sigCheck (some AlpmError.SigMissing)) 3 ["a", "b"]
      = ("a" :: (verify_packages (fun _ => FileCheck.sigCheck (some AlpmError.SigMissing)) 3 ["b"]).1,
         (verify_packages (fun _ => FileCheck.sigCheck (some AlpmError.SigMissing)) 3 ["b"]).2)
    ∧ verify_packages (fun _ => FileCheck.sigCheck (some AlpmError.SigMissing)) 1 ["a", "b"]
      = (["a"], Except.error ⟨["failed to verify package " ++ "a"],
          some AlpmError.SigMissing⟩) :=
  ⟨(verify_missing_signature_policy
      (fun _ => FileCheck.sigCheck (some AlpmError.SigMissing)) 3 "a" ["b"]
      (by decide) rfl).1 (by decide),
   (verify_missing_signature_policy
      (fun _ => FileCheck.sigCheck (some AlpmError.SigMissing)) 1 "a" ["b"]
      (by decide) rfl).2 (by decide)⟩

/-- C2: a trust policy without the `PACKAGE` bit makes `verify_packages`
return success at once with an empty load trace — no file I/O on any
listed file. -/
theorem verify_no_package_bit (check : String → FileCheck)
    (siglevel : SigLevel) (files : List String)
    (h : siglevel.contains SigLevel.PACKAGE = false) :
    verify_packages check siglevel files = ([], Except.ok ()) := by
  simp [verify_packages, h]

/-- Witness for C2: a signature level of `0` over a non-empty file list
with an always-failing loader still succeeds, loading nothing. -/
theorem verify_no_package_bit_witness :
    verify_packages (fun _ => FileCheck.loadErr AlpmError.PkgOpen) 0 ["a", "b"]
      = ([], Except.ok ()) :=
  verify_no_package_bit (fun _ => FileCheck.loadErr AlpmError.PkgOpen) 0 ["a", "b"]
    (by decide)

/-- C10: over an empty file list, `verify_packages` succeeds for every
trust policy, loading nothing. -/
theorem verify_empty_list (check : String → FileCheck) (siglevel : SigLevel) :
    verify_packages check siglevel [] = ([], Except.ok ()) := by
  by_cases h : siglevel.contains SigLevel.PACKAGE = true <;>
    simp [verify_packages, verifyLoop, h]

/-- C8 counterexample: with policy `PACKAGE` and a file whose `pkg_load`
fails, verification aborts with the load error propagated bare — no
context line mentions the offending file, contradicting the claim that
every non-tolerated failure produces an error naming the file. -/
theorem verify_load_failure_counterexample :
    (verify_packages (fun _ => FileCheck.loadErr AlpmError.PkgOpen)
        SigLevel.PACKAGE ["a.pkg"]).2
      = Except.error ⟨[], some AlpmError.PkgOpen⟩
    ∧ errorMentions
        (verify_packages (fun _ => FileCheck.loadErr AlpmError.PkgOpen)
          SigLevel.PACKAGE ["a.pkg"]).2 "a.pkg" = false :=
  ⟨rfl, rfl⟩

/-- C8 amended: with a policy containing `PACKAGE`, any non-tolerated
failure on a file aborts verification immediately (no later file is
loaded); a `check_signature` failure carries a context naming the
offending file, while a `pkg_load` failure is propagated without any
added context. -/
theorem verify_failure_aborts (check : String → FileCheck)
    (siglevel : SigLevel) (f : String) (fs : List String)
    (hP : siglevel.contains SigLevel.PACKAGE = true) :
    (∀ e, check f = FileCheck.loadErr e →
      verify_packages check siglevel (f :: fs)
        = ([f], Except.error ⟨[], some e⟩))
    ∧ (∀ e, check f = FileCheck.sigCheck (some e) →
        ¬(e = AlpmError.SigMissing
            ∧ siglevel.contains SigLevel.PACKAGE_OPTIONAL = true) →
        verify_packages check siglevel (f :: fs)
          = ([f], Except.error ⟨["failed to verify package " ++ f], some e⟩)) := by
  constructor
  · intro e he
    simp [verify_packages, verifyLoop, hP, he]
  · intro e he hne
    have hb : (decide (e = AlpmError.SigMissing)
        && siglevel.contains SigLevel.PACKAGE_OPTIONAL) = false := by
      rcases Bool.eq_false_or_eq_true
          (siglevel.contains SigLevel.PACKAGE_OPTIONAL) with h | h
      · simp only [h, Bool.and_true, decide_eq_false_iff_not]
        exact fun hes => hne ⟨hes, h⟩
      · simp [h]
    simp [verify_packages, verifyLoop, hP, he, hb]

/-- Witness for the C8 amended theorem: a load failure aborts with a
bare error; an invalid signature aborts with a context naming the
file. -/
theorem verify_failure_aborts_witness :
    verify_packages (fun _ => FileCheck.loadErr AlpmError.PkgOpen) 1 ["a", "b"]
      = (["a"], Except.error ⟨[], some AlpmError.PkgOpen⟩)
    ∧ verify_packages (fun _ => FileCheck.sigCheck (some AlpmError.SigInvalid)) 1 ["a", "b"]
      = (["a"], Except.error ⟨["failed to verify package " ++ "a"],
          some AlpmError.SigInvalid⟩) :=
  ⟨(verify_failure_aborts (fun _ => FileCheck.loadErr AlpmError.PkgOpen) 1 "a" ["b"]
      (by decide)).1 AlpmError.PkgOpen rfl,
   (verify_failure_aborts (fun _ => FileCheck.sigCheck (some AlpmError.SigInvalid)) 1 "a" ["b"]
      (by decide)).2 AlpmError.SigInvalid rfl (by simp)⟩

/-! ## Claims about the package resolver -/

/-- `findSome?` skips a leading block on which the function yields
nothing. -/
theorem findSome?_append_of_none {α β : Type} (f : α → Option β)
    (pre l : List α) (h : ∀ x ∈ pre, f x = none) :
    (pre ++ l).findSome? f = l.findSome? f := by
  induction pre with
  | nil => rfl
  | cons x xs ih =>
    have hx : f x = none := h x (by simp)
    have hxs : ∀ y ∈ xs, f y = none := fun y hy => h y (by simp [hy])
    simp [List.findSome?_cons, hx, ih hxs]

/-- C3: resolution with `localdb = true` over a local database lacking
the target fails with a not-found error naming the target verbatim, and
the result never depends on the sync databases — even when one of them
holds a same-named package. -/
theorem resolve_local_only (ldb : Db) (dbs dbs' : List Db) (t : String)
    (h : ldb.pkg t = none) :
    get_dbpkg ⟨ldb, dbs⟩ t true
      = Except.error ⟨["could not find package: " ++ t], none⟩
    ∧ get_dbpkg ⟨ldb, dbs⟩ t true = get_dbpkg ⟨ldb, dbs'⟩ t true := by
  constructor <;> simp [get_dbpkg, h]

/-- Witness for C3: `foo` is not installed locally but exists in the
remote `extra` database; local-only resolution still fails not-found,
naming `foo`. -/
theorem resolve_local_only_witness :
    get_dbpkg ⟨emptyLocalDb, [extraDb]⟩ "foo" true
      = Except.error ⟨["could not find package: " ++ "foo"], none⟩
    ∧ get_dbpkg ⟨emptyLocalDb, [extraDb]⟩ "foo" true
      = get_dbpkg ⟨emptyLocalDb, []⟩ "foo" true :=
  resolve_local_only emptyLocalDb [extraDb] [] "foo" rfl

/-- C4: resolution with `localdb = false` parses the target and, for an
unqualified target, returns the satisfier found in the first sync
database that has one, scanning the configured order — any databases
before it without a satisfier are skipped, and databases after it
(e.g. a later database also holding a satisfying package) are never
preferred. -/
theorem resolve_remote_order (ldb A : Db) (pre rest : List Db)
    (t : String) (p : Pkg)
    (hq : (Targ.fromStr t).repo = none)
    (hA : find_satisfier A.pkgs (Targ.fromStr t).pkg = some p)
    (hpre : ∀ db ∈ pre, find_satisfier db.pkgs (Targ.fromStr t).pkg = none) :
    get_dbpkg ⟨ldb, pre ++ A :: rest⟩ t false = Except.ok p := by
  have hscan : (pre ++ A :: rest).findSome?
      (fun db => find_satisfier db.pkgs (Targ.fromStr t).pkg) = some p := by
    rw [findSome?_append_of_none _ pre _ hpre]
    simp [List.findSome?_cons, hA]
  simp [get_dbpkg, find_target_satisfier, hq, hscan]

/-- Witness for C4: databases `A` (first) and `B` (second) both hold a
package satisfying `foo`; resolution returns the record from `A`. -/
theorem resolve_remote_order_witness :
    get_dbpkg ⟨emptyLocalDb,
        [extraDb, ⟨⟨"community", ["https://m3"]⟩,
          [⟨"foo", [], "foo-2.0-1-x86_64.pkg.tar.zst", some ⟨"community", ["https://m3"]⟩⟩]⟩]⟩
      "foo" false = Except.ok fooPkg :=
  resolve_remote_order emptyLocalDb extraDb []
    [⟨⟨"community", ["https://m3"]⟩,
      [⟨"foo", [], "foo-2.0-1-x86_64.pkg.tar.zst", some ⟨"community", ["https://m3"]⟩⟩]⟩]
    "foo" fooPkg rfl rfl (by simp)

/-! ## Claims about the download locator -/

/-- C5: for a record whose owning database has servers, the URL is the
first server joined to the archive filename with a single `/`; with an
empty server list the result is the `ServerNone` error. -/
theorem locate_first_server (pkg : Pkg) (db : DbInfo) (h : pkg.db = some db) :
    (∀ s rest, db.servers = s :: rest →
      get_download_url pkg = UrlResult.ok (s ++ "/" ++ pkg.filename))
    ∧ (db.servers = [] →
      get_download_url pkg = UrlResult.err ⟨[], some AlpmError.ServerNone⟩) := by
  constructor
  · intro s rest hs
    simp [get_download_url, h, hs]
  · intro hs
    simp [get_download_url, h, hs]

/-- Witness for C5 at mirrors `["https://m1", "https://m2"]` and at an
empty mirror list. -/
theorem locate_first_server_witness :
    get_download_url mirrorPkg = UrlResult.ok "https://m1/pkg-1.0-1-x86_64.pkg.tar.zst"
    ∧ get_download_url noServerPkg = UrlResult.err ⟨[], some AlpmError.ServerNone⟩ := by
  constructor
  · rw [(locate_first_server mirrorPkg ⟨"extra", ["https://m1", "https://m2"]⟩ rfl).1
      "https://m1" ["https://m2"] rfl]
    rfl
  · exact (locate_first_server noServerPkg ⟨"extra", []⟩ rfl).2 rfl

/-- C9: a record with no owning database makes `get_download_url` hit
the `unwrap` — a fatal invariant violation rather than a returned
error; for a record with an owning database (as any record coming from
a real database listing has) that branch never fails. -/
theorem locate_db_invariant (pkg : Pkg) :
    (pkg.db = none → get_download_url pkg = UrlResult.panicked)
    ∧ (∀ db, pkg.db = some db → get_download_url pkg ≠ UrlResult.panicked) := by
  constructor
  · intro h
    simp [get_download_url, h]
  · intro db h
    cases hs : db.servers.head? <;> simp [get_download_url, h, hs]

/-- Witness for C9: the fixture without an owning database panics; the
fixture with one does not. -/
theorem locate_db_invariant_witness :
    get_download_url noDbPkg = UrlResult.panicked
    ∧ get_download_url mirrorPkg ≠ UrlResult.panicked :=
  ⟨(locate_db_invariant noDbPkg).1 rfl,
   (locate_db_invariant mirrorPkg).2 ⟨"extra", ["https://m1", "https://m2"]⟩ rfl⟩

/-! ## Claims about session initialization -/

/-- The validity loop emits no update call. -/
theorem validityLoop_no_update (v : String → Except AlpmError Unit)
    (ext : String) (names : List String) :
    (validityLoop v ext names).1.any isUpdate = false := by
  induction names with
  | nil => rfl
  | cons n rest ih =>
    cases hv : v n <;> simp [validityLoop, hv, isUpdate, ih]

/-- `hasAdjacent` is preserved by extending the list on the left. -/
theorem hasAdjacent_cons (a b x : InitEvent) (l : List InitEvent)
    (h : hasAdjacent a b l = true) : hasAdjacent a b (x :: l) = true := by
  cases l with
  | nil => simp [hasAdjacent] at h
  | cons y rest => simp [hasAdjacent, h]

/-- `hasAdjacent` holds at the head of the list. -/
theorem hasAdjacent_pair (a b : InitEvent) (post : List InitEvent) :
    hasAdjacent a b (a :: b :: post) = true := by
  simp [hasAdjacent]

/-- `hasAdjacent` holds across an arbitrary head block. -/
theorem hasAdjacent_append (a b : InitEvent) (pre post : List InitEvent) :
    hasAdjacent a b (pre ++ a :: b :: post) = true := by
  induction pre with
  | nil => simpa using hasAdjacent_pair a b post
  | cons x xs ih => exact hasAdjacent_cons a b x _ ih

/-- `hasAdjacent` holds with the pair written as a middle block. -/
theorem hasAdjacent_append2 (a b : InitEvent) (pre post : List InitEvent) :
    hasAdjacent a b (pre ++ [a, b] ++ post) = true := by
  have h : pre ++ [a, b] ++ post = pre ++ a :: b :: post := by simp
  rw [h]
  exact hasAdjacent_append a b pre post

/-- `hasAdjacent` holds with the pair at the end of the list. -/
theorem hasAdjacent_end (a b : InitEvent) (pre : List InitEvent) :
    hasAdjacent a b (pre ++ [a, b]) = true := by
  simpa using hasAdjacent_append2 a b pre []

/-- C6: when configuration loading, session construction, configuration
application and cache-directory registration all succeed, a refresh
intensity of `0` triggers no update call; an intensity of `1` puts a
non-forced update call in the trace, immediately preceded by the
human-readable notice; any intensity above `1` likewise puts a forced
update call right after the notice; and a failing update makes the
whole initialization fail with that error. -/
theorem init_refresh_policy (env : InitEnv) (args : Args) (conf0 : Conf)
    (cdir : String)
    (h1 : env.loadConf args.config args.root = Except.ok conf0)
    (h2 : env.newAlpm (mergeDbpath args.dbpath conf0).root_dir
        (mergeDbpath args.dbpath conf0).db_path = Except.ok ())
    (h3 : env.configure (mergeDbpath args.dbpath conf0) = Except.ok ())
    (h4 : resolveCachedir args.cachedir env.tempDirUtf8 = Except.ok cdir)
    (h5 : env.addCachedirRes cdir = Except.ok ()) :
    (args.refresh = 0 → (alpm_init env args).1.any isUpdate = false)
    ∧ (args.refresh = 1 →
        hasAdjacent (InitEvent.note "synchronising package databases...")
          (InitEvent.updateCall false) (alpm_init env args).1 = true)
    ∧ (args.refresh > 1 →
        hasAdjacent (InitEvent.note "synchronising package databases...")
          (InitEvent.updateCall true) (alpm_init env args).1 = true)
    ∧ (∀ e, args.refresh > 0 →
        env.update (decide (args.refresh > 1)) = Except.error e →
        (alpm_init env args).2 = Except.error ⟨[], some e⟩) := by
  refine ⟨?_, ?_, ?_, ?_⟩
  · intro h0
    cases hf : args.filedb <;>
      simp [alpm_init, h1, h2, h3, h4, h5, h0, hf, isUpdate, validityLoop_no_update]
  · intro hr
    cases hu : env.update false <;> cases hf : args.filedb <;>
      simp [alpm_init, h1, h2, h3, h4, h5, hr, hf, hu, hasAdjacent]
  · intro hr
    have hd : decide (args.refresh > 1) = true := decide_eq_true hr
    have hp : args.refresh > 0 := by omega
    cases hu : env.update true <;> cases hf : args.filedb <;>
      simp [alpm_init, h1, h2, h3, h4, h5, hd, hp, hf, hu, hasAdjacent]
  · intro e hpos hupd
    cases hf : args.filedb <;>
      simp [alpm_init, h1, h2, h3, h4, h5, hf, hpos, hupd]

/-- Witness for C6 on the all-success oracle environment at refresh
intensities 0, 1 and 2, and on the failing-update environment. -/
theorem init_refresh_policy_witness :
    (alpm_init envOk (argsR 0)).1.any isUpdate = false
    ∧ hasAdjacent (InitEvent.note "synchronising package databases...")
        (InitEvent.updateCall false) (alpm_init envOk (argsR 1)).1 = true
    ∧ hasAdjacent (InitEvent.note "synchronising package databases...")
        (InitEvent.updateCall true) (alpm_init envOk (argsR 2)).1 = true
    ∧ (alpm_init envUpdFail (argsR 1)).2
        = Except.error ⟨[], some AlpmError.Retrieve⟩ :=
  ⟨(init_refresh_policy envOk (argsR 0) ⟨"/", "/var/lib/pacman/"⟩ "/tmp/paccat"
      rfl rfl rfl rfl rfl).1 rfl,
   (init_refresh_policy envOk (argsR 1) ⟨"/", "/var/lib/pacman/"⟩ "/tmp/paccat"
      rfl rfl rfl rfl rfl).2.1 rfl,
   (init_refresh_policy envOk (argsR 2) ⟨"/", "/var/lib/pacman/"⟩ "/tmp/paccat"
      rfl rfl rfl rfl rfl).2.2.1 (by decide),
   (init_refresh_policy envUpdFail (argsR 1) ⟨"/", "/var/lib/pacman/"⟩ "/tmp/paccat"
      rfl rfl rfl rfl rfl).2.2.2 AlpmError.Retrieve (by decide) rfl⟩

/-- C7: an explicit cache-directory override is used as given; without
one, the directory `<temp>/paccat` under the process temporary
directory is synthesized; a temporary directory not representable as
text makes initialization fail with the `tempdir is not a str` context;
and the resolved directory is registered on the session (per the spec,
the external registration call creates it if it does not exist). -/
theorem init_cachedir_policy (env : InitEnv) (args : Args) (conf0 : Conf)
    (h1 : env.loadConf args.config args.root = Except.ok conf0)
    (h2 : env.newAlpm (mergeDbpath args.dbpath conf0).root_dir
        (mergeDbpath args.dbpath conf0).db_path = Except.ok ())
    (h3 : env.configure (mergeDbpath args.dbpath conf0) = Except.ok ()) :
    (∀ d, args.cachedir = some d →
      resolveCachedir args.cachedir env.tempDirUtf8 = Except.ok d)
    ∧ (∀ t, args.cachedir = none → env.tempDirUtf8 = some t →
      resolveCachedir args.cachedir env.tempDirUtf8 = Except.ok (t ++ "/paccat"))
    ∧ (args.cachedir = none → env.tempDirUtf8 = none →
      (alpm_init env args).2 = Except.error ⟨["tempdir is not a str"], none⟩)
    ∧ (∀ cdir, resolveCachedir args.cachedir env.tempDirUtf8 = Except.ok cdir →
      env.addCachedirRes cdir = Except.ok () →
      InitEvent.addCachedir cdir ∈ (alpm_init env args).1) := by
  refine ⟨?_, ?_, ?_, ?_⟩
  · intro d hd
    simp [resolveCachedir, hd]
  · intro t hn ht
    simp [resolveCachedir, hn, ht]
  · intro hn ht
    have h4 : resolveCachedir args.cachedir env.tempDirUtf8
        = Except.error ⟨["tempdir is not a str"], none⟩ := by
      simp [resolveCachedir, hn, ht]
    cases hf : args.filedb <;> simp [alpm_init, h1, h2, h3, h4, hf]
  · intro cdir h4 h5
    by_cases hr : args.refresh > 0
    · cases hu : env.update (decide (args.refresh > 1)) <;>
        cases hf : args.filedb <;>
        simp [alpm_init, h1, h2, h3, h4, h5, hf, hr, hu]
    · cases hf : args.filedb <;>
        simp [alpm_init, h1, h2, h3, h4, h5, hf, hr]

/-- Witness for C7: the override is used; without one `/tmp/paccat` is
synthesized and registered; a non-text temporary directory fails
initialization. -/
theorem init_cachedir_policy_witness :
    resolveCachedir argsCache.cachedir envOk.tempDirUtf8
      = Except.ok "/var/cache/custom"
    ∧ resolveCachedir (argsR 0).cachedir envOk.tempDirUtf8
      = Except.ok ("/tmp" ++ "/paccat")
    ∧ (alpm_init envNoTmp (argsR 0)).2
      = Except.error ⟨["tempdir is not a str"], none⟩
    ∧ InitEvent.addCachedir "/tmp/paccat" ∈ (alpm_init envOk (argsR 0)).1 :=
  ⟨(init_cachedir_policy envOk argsCache ⟨"/", "/var/lib/pacman/"⟩
      rfl rfl rfl).1 "/var/cache/custom" rfl,
   (init_cachedir_policy envOk (argsR 0) ⟨"/", "/var/lib/pacman/"⟩
      rfl rfl rfl).2.1 "/tmp" rfl rfl,
   (init_cachedir_policy envNoTmp (argsR 0) ⟨"/", "/var/lib/pacman/"⟩
      rfl rfl rfl).2.2.1 rfl rfl,
   (init_cachedir_policy envOk (argsR 0) ⟨"/", "/var/lib/pacman/"⟩
      rfl rfl rfl).2.2.2 "/tmp/paccat" rfl rfl⟩

end Paccat
